import Mathlib

/-!
Shallow embedding of the `nyc_apartments` aggregation pipeline
(`models.py`, `filters.py`, `geo.py`, `aggregator.py`, `providers/base.py`,
`providers/rentcast_rental_listings.py`, `http_client.py`) and proofs about it.

Conventions of the embedding:
* Python floats are modelled as rationals (`ℚ`); the only float arithmetic
  the pipeline itself performs is comparison, multiplication and `float("inf")`
  sentinels, all of which are exact on the concrete values involved.
* `haversine_km` is a transcendental floating-point computation; the pipeline
  treats it as an opaque distance oracle, so the embedding abstracts it as a
  parameter `dist : Dist` that every pipeline function receives, exactly where
  the Python code calls `haversine_km`.
* Python `None` becomes `Option.none`; `float("inf")` sort sentinels become
  `(⊤ : WithTop ℚ)`.
* Exceptions become `Except`; the external geocoder and HTTP endpoints become
  oracle function parameters.
-/

namespace NycApartments

/-! ### models.py -/

/-- `Location` from `models.py`: a latitude/longitude pair in decimal degrees. -/
structure Location where
  lat : ℚ
  lon : ℚ
deriving Repr, DecidableEq

/-- `Apartment` from `models.py`, restricted to the fields the aggregation
pipeline reads (`id`, `provider`, `lat`, `lon`, `price`, `beds`); the
remaining fields (`title`, `address`, `city`, ..., `raw`) are carried through
the pipeline untouched and never inspected, so they are omitted. -/
structure Apartment where
  id : String
  provider : String
  lat : Option ℚ
  lon : Option ℚ
  price : Option Int
  beds : Option ℚ
deriving Repr, DecidableEq

/-! ### config.py -/

/-- `AppConfig` from `config.py`, restricted to the fields the pipeline and the
providers read. -/
structure AppConfig where
  center_address : Option String := none
  center_lat : Option ℚ := none
  center_lon : Option ℚ := none
  radius_km : ℚ := 3
  min_price : Option Int := none
  max_price : Option Int := none
  min_beds : Option ℚ := none
  max_beds : Option ℚ := none
  providers : List String := []
  «limit» : Option Int := none
  rentcast_api_key : Option String := none
deriving Repr

/-! ### geo.py -/

/-- The type of the distance oracle standing for `geo.haversine_km`:
given `lat1 lon1 lat2 lon2`, produce a distance in kilometers. -/
abbrev Dist : Type := ℚ → ℚ → ℚ → ℚ → ℚ

/-- `geo.within_radius`: `haversine_km(center.lat, center.lon, point.lat,
point.lon) <= radius_km` (inclusive boundary). -/
def within_radius (dist : Dist) (center point : Location) (radius_km : ℚ) : Bool :=
  decide (dist center.lat center.lon point.lat point.lon ≤ radius_km)

/-! ### filters.py -/

/-- `filters.filter_by_price`: entries without a price are kept; an entry with
a price is skipped (`continue`) when `min_price is not None and price <
min_price`, or when `max_price is not None and price > max_price`. -/
def filter_by_price (apartments : List Apartment)
    (min_price max_price : Option Int) : List Apartment :=
  apartments.filter fun apt =>
    match apt.price with
    | none => true
    | some price =>
        !(match min_price with
          | some m => decide (price < m)
          | none => false) &&
        !(match max_price with
          | some m => decide (m < price)
          | none => false)

/-- `filters.filter_by_beds`: same shape as `filter_by_price` over the
(fractional) bed count. -/
def filter_by_beds (apartments : List Apartment)
    (min_beds max_beds : Option ℚ) : List Apartment :=
  apartments.filter fun apt =>
    match apt.beds with
    | none => true
    | some beds =>
        !(match min_beds with
          | some m => decide (beds < m)
          | none => false) &&
        !(match max_beds with
          | some m => decide (m < beds)
          | none => false)

/-- `filters.filter_by_radius`: entries missing either coordinate are dropped
(`continue`); otherwise kept iff `within_radius(center, Location(lat, lon),
radius_km)`. -/
def filter_by_radius (dist : Dist) (apartments : List Apartment)
    (center : Location) (radius_km : ℚ) : List Apartment :=
  apartments.filter fun apt =>
    match apt.lat, apt.lon with
    | some la, some lo => within_radius dist center ⟨la, lo⟩ radius_km
    | _, _ => false

/-- `filters.apply_filters`: radius filter, then price filter, then bed
filter, then (when a positive limit is configured) truncation to the first
`limit` entries. -/
def apply_filters (dist : Dist) (apartments : List Apartment)
    (config : AppConfig) (center : Location) : List Apartment :=
  let result := filter_by_radius dist apartments center config.radius_km
  let result := filter_by_price result config.min_price config.max_price
  let result := filter_by_beds result config.min_beds config.max_beds
  match config.limit with
  | some n => if 0 < n then result.take n.toNat else result
  | none => result

/-! ### aggregator.py: center resolution -/

/-- The two fatal errors of `aggregator.resolve_center`: the `ValueError` when
neither coordinates nor an address are configured, and the `RuntimeError` when
geocoding finds no match. -/
inductive CenterError
  | configurationError
  | resolutionError (address : String)
deriving Repr, DecidableEq

/-- `aggregator.resolve_center`, with the external geocoder
(`geo.geocode_address`) abstracted as an oracle `geocode`. Python's
`if not config.center_address` is true both for `None` and for `""`. -/
def resolve_center (geocode : String → Option Location)
    (config : AppConfig) : Except CenterError Location :=
  match config.center_lat, config.center_lon with
  | some la, some lo => .ok ⟨la, lo⟩
  | _, _ =>
    match config.center_address with
    | none => .error .configurationError
    | some addr =>
        if addr = "" then .error .configurationError
        else
          match geocode addr with
          | none => .error (.resolutionError addr)
          | some loc => .ok loc

/-! ### providers/base.py -/

/-- A provider class as the pipeline sees it: a `name` class attribute and a
`fetch` method that either returns listings or raises (error type `ε`). -/
structure Provider (ε : Type) where
  name : String
  fetch : AppConfig → Except ε (List Apartment)

/-- `base.discover_providers` restricted to its pure part: `_DISCOVERED` (the
process-wide cache of scanned classes) is the `discovered` parameter. With a
falsy (empty) `enabled_names` all discovered providers are returned; otherwise
the discovered list is filtered by name membership. -/
def discover_providers {ε : Type} (discovered : List (Provider ε))
    (enabled_names : List String) : List (Provider ε) :=
  if enabled_names.isEmpty then discovered
  else discovered.filter fun cls => decide (cls.name ∈ enabled_names)

/-! ### aggregator.py: the pipeline -/

/-- The fetch fan-out loop of `run_aggregation`: each provider's `fetch` is
attempted; on success its results extend the accumulator, on any exception the
provider is logged and skipped (contributing nothing). -/
def fetch_results {ε : Type} (providers : List (Provider ε))
    (config : AppConfig) : List Apartment :=
  providers.foldl
    (fun acc p =>
      match p.fetch config with
      | .ok results => acc ++ results
      | .error _ => acc)
    []

/-- The dedup loop of `run_aggregation` with its `seen` set of
`(provider, id)` keys made explicit. -/
def dedupGo (seen : List (String × String)) : List Apartment → List Apartment
  | [] => []
  | apt :: rest =>
      if (apt.provider, apt.id) ∈ seen then dedupGo seen rest
      else apt :: dedupGo ((apt.provider, apt.id) :: seen) rest

/-- Deduplication by exact `(provider, id)` key, first occurrence wins
(`run_aggregation`, the `seen`/`deduped` loop). -/
def dedup (apartments : List Apartment) : List Apartment :=
  dedupGo [] apartments

/-- The `sort_key` closure inside `run_aggregation`: a pair (distance to the
center, price), with `float("inf")` — here `⊤` — for a missing coordinate or a
missing price. -/
def sort_key (dist : Dist) (center : Location) (apt : Apartment) :
    WithTop ℚ × WithTop ℚ :=
  (match apt.lat, apt.lon with
   | some la, some lo => ((dist center.lat center.lon la lo : ℚ) : WithTop ℚ)
   | _, _ => ⊤,
   match apt.price with
   | some price => ((price : ℚ) : WithTop ℚ)
   | none => ⊤)

/-- Lexicographic order on sort keys: exactly how Python compares the
`(distance, price)` tuples produced by `sort_key`. -/
def keyLE (k₁ k₂ : WithTop ℚ × WithTop ℚ) : Prop :=
  k₁.1 < k₂.1 ∨ (k₁.1 = k₂.1 ∧ k₁.2 ≤ k₂.2)

instance (k₁ k₂ : WithTop ℚ × WithTop ℚ) : Decidable (keyLE k₁ k₂) :=
  inferInstanceAs (Decidable (_ ∨ _))

/-- The ordering `list.sort(key=sort_key)` sorts by. -/
def aptRel (dist : Dist) (center : Location) (a b : Apartment) : Prop :=
  keyLE (sort_key dist center a) (sort_key dist center b)

instance (dist : Dist) (center : Location) : DecidableRel (aptRel dist center) :=
  fun _ _ => inferInstanceAs (Decidable (keyLE _ _))

/-- `filtered.sort(key=sort_key)`: CPython's `list.sort` is a stable sort by
the key order, so it is modelled by the (stable) insertion sort under
`aptRel`. -/
def sortApartments (dist : Dist) (center : Location)
    (l : List Apartment) : List Apartment :=
  l.insertionSort (aptRel dist center)

/-- `aggregator.run_aggregation`: resolve the center (fatal on failure),
discover providers, fetch with per-provider error isolation, dedup, filter,
sort. -/
def run_aggregation {ε : Type} (dist : Dist)
    (geocode : String → Option Location) (discovered : List (Provider ε))
    (config : AppConfig) : Except CenterError (List Apartment) :=
  match resolve_center geocode config with
  | .error e => .error e
  | .ok center =>
      let providers := discover_providers discovered config.providers
      let apartments := fetch_results providers config
      let deduped := dedup apartments
      let filtered := apply_filters dist deduped config center
      .ok (sortApartments dist center filtered)

/-! ### http_client.py -/

/-- The kinds of exception the `try` body of `fetch_json` can raise:
a transport-level error from `session.get`, an `HTTPError` from
`response.raise_for_status()` on a non-2xx status, or a JSON decode error from
`response.json()` on a 2xx response with a malformed body. All three are
caught by the single `except Exception` clause. -/
inductive Exc
  | transport
  | httpStatus (code : Nat)
  | jsonDecode
deriving Repr, DecidableEq

/-- The outcome of one iteration of the `try` body of `fetch_json` (one HTTP
attempt): either `return response.json()` with a value, or an exception. -/
inductive AttemptOutcome (J : Type)
  | success (v : J)
  | failure (e : Exc)
deriving Repr, DecidableEq

/-- How a call to `fetch_json` terminates: a returned JSON value, a re-raised
`last_exc`, or the failure of `assert last_exc is not None`. -/
inductive FetchResult (J : Type)
  | value (v : J)
  | raised (e : Exc)
  | assertionError
deriving Repr, DecidableEq

/-- The code after the `while` loop of `fetch_json`: `assert last_exc is not
None` followed by `raise last_exc`. -/
def fetchExit {J : Type} (last_exc : Option Exc) (sleeps : List ℚ) :
    FetchResult J × List ℚ :=
  match last_exc with
  | some e => (.raised e, sleeps)
  | none => (.assertionError, sleeps)

/-- The `while attempt < retries` loop of `fetch_json`, with the sequence of
HTTP attempt outcomes abstracted as the oracle `outcomes` (the `attempt`-th
attempt yields `outcomes attempt`). The list of `time.sleep` durations
(`backoff_factor * 2 ** (attempt - 1)` after incrementing `attempt`) is
accumulated alongside the result. -/
def fetchLoop {J : Type} (outcomes : Int → AttemptOutcome J) (retries : Int)
    (backoff_factor : ℚ) (attempt : Int) (last_exc : Option Exc)
    (sleeps : List ℚ) : FetchResult J × List ℚ :=
  if _h : attempt < retries then
    match outcomes attempt with
    | .success v => (.value v, sleeps)
    | .failure e =>
        fetchLoop outcomes retries backoff_factor (attempt + 1) (some e)
          (sleeps ++ [backoff_factor * 2 ^ attempt.toNat])
  else
    fetchExit last_exc sleeps
termination_by (retries - attempt).toNat
decreasing_by omega

/-- `http_client.fetch_json`: the retry loop entered with `attempt = 0` and
`last_exc = None`. -/
def fetch_json {J : Type} (outcomes : Int → AttemptOutcome J) (retries : Int)
    (backoff_factor : ℚ) : FetchResult J × List ℚ :=
  fetchLoop outcomes retries backoff_factor 0 none []

/-! ### providers/rentcast_rental_listings.py -/

/-- The query parameters `RentcastLongTermRentalProvider.fetch` assembles for
the RentCast listings endpoint (kept structured instead of string-encoded:
the `"min:max"` range strings are modelled as the pairs they encode). -/
structure RentcastQuery where
  api_key : String
  latitude : ℚ
  longitude : ℚ
  radius : ℚ
  «limit» : Int
  price_range : Option (Option Int × Option Int)
  bedrooms_range : Option (Option ℚ × Option ℚ)
deriving Repr

/-- The shape of the decoded RentCast response body: `fetch` checks
`isinstance(raw, list)` and returns no results otherwise. -/
inductive RcResponse (I : Type)
  | listOf (items : List I)
  | notAList

/-- An exception escaping `RentcastLongTermRentalProvider.fetch` (to be caught
by the aggregator): a center-resolution error from `resolve_center`, or
whatever `fetch_json` re-raises. -/
inductive RcError
  | center (e : CenterError)
  | fetch (e : Exc)
deriving Repr, DecidableEq

/-- Python's `config.rentcast_api_key or os.getenv("RENTCAST_API_KEY")`:
`or` falls through on falsy values, i.e. on `None` and on `""`. -/
def resolvedApiKey (configKey envKey : Option String) : Option String :=
  match configKey with
  | some s => if s = "" then envKey else some s
  | none => envKey

/-- `RentcastLongTermRentalProvider.fetch`. External effects are oracles:
`geocode` (used by `resolve_center`), `doRequest` (the `fetch_json` call
against the RentCast endpoint), and `normalize` (the per-item
`isinstance(item, dict)` check plus `self._normalize(item)` under
`try/except`, returning `none` when the row is skipped). With a falsy API key
the method returns `[]` before touching any of the oracles. -/
def rentcastFetch {I : Type} (envKey : Option String)
    (geocode : String → Option Location)
    (doRequest : RentcastQuery → Except Exc (RcResponse I))
    (normalize : I → Option Apartment)
    (config : AppConfig) : Except RcError (List Apartment) :=
  match resolvedApiKey config.rentcast_api_key envKey with
  | none => .ok []
  | some api_key =>
      if api_key = "" then .ok []
      else
        match resolve_center geocode config with
        | .error e => .error (.center e)
        | .ok center =>
            let radius_miles := max config.radius_km (1/10) * (621371/1000000)
            let requested : Int :=
              match config.limit with
              | some n => if 0 < n then min n 500 else 100
              | none => 100
            let params : RentcastQuery :=
              { api_key := api_key
                latitude := center.lat
                longitude := center.lon
                radius := radius_miles
                «limit» := requested
                price_range :=
                  if config.min_price.isSome || config.max_price.isSome then
                    some (config.min_price, config.max_price)
                  else none
                bedrooms_range :=
                  if config.min_beds.isSome || config.max_beds.isSome then
                    some (config.min_beds, config.max_beds)
                  else none }
            match doRequest params with
            | .error e => .error (.fetch e)
            | .ok .notAList => .ok []
            | .ok (.listOf items) => .ok (items.filterMap normalize)

/-! ## Helper lemmas -/

theorem dedupGo_sublist (seen : List (String × String)) (l : List Apartment) :
    List.Sublist (dedupGo seen l) l := by
  induction l generalizing seen with
  | nil => simp [dedupGo]
  | cons a rest ih =>
    rw [dedupGo]
    split
    · exact (ih seen).cons a
    · exact (ih _).cons₂ a

theorem dedupGo_filter_key (seen : List (String × String)) (l : List Apartment)
    (k : String × String) :
    (dedupGo seen l).filter (fun a => decide ((a.provider, a.id) = k)) =
      if k ∈ seen then []
      else (l.filter (fun a => decide ((a.provider, a.id) = k))).take 1 := by
  induction l generalizing seen with
  | nil =>
    rw [dedupGo]
    split <;> simp
  | cons a rest ih =>
    rw [dedupGo]
    by_cases hseen : (a.provider, a.id) ∈ seen
    · rw [if_pos hseen, ih]
      by_cases hk : k ∈ seen
      · rw [if_pos hk, if_pos hk]
      · rw [if_neg hk, if_neg hk]
        have hne : ¬((a.provider, a.id) = k) := fun h => hk (h ▸ hseen)
        rw [List.filter_cons, if_neg (by simpa using hne)]
    · rw [if_neg hseen]
      by_cases hak : (a.provider, a.id) = k
      · have hkseen : k ∉ seen := fun h => hseen (hak ▸ h)
        rw [List.filter_cons, if_pos (by simpa using hak), ih,
          if_pos (by simp [← hak]), if_neg hkseen,
          List.filter_cons, if_pos (by simpa using hak)]
        simp
      · rw [List.filter_cons, if_neg (by simpa using hak), ih]
        have hk2 : k ≠ (a.provider, a.id) := fun h => hak h.symm
        have : (k ∈ (a.provider, a.id) :: seen) ↔ k ∈ seen := by
          simp [hk2]
        by_cases hk : k ∈ seen
        · rw [if_pos (this.mpr hk), if_pos hk]
        · rw [if_neg (fun h => hk (this.mp h)), if_neg hk,
            List.filter_cons, if_neg (by simpa using hak)]

theorem keyLE_refl (k : WithTop ℚ × WithTop ℚ) : keyLE k k :=
  Or.inr ⟨rfl, le_refl _⟩

theorem keyLE_total (k₁ k₂ : WithTop ℚ × WithTop ℚ) :
    keyLE k₁ k₂ ∨ keyLE k₂ k₁ := by
  rcases lt_trichotomy k₁.1 k₂.1 with h | h | h
  · exact Or.inl (Or.inl h)
  · rcases le_total k₁.2 k₂.2 with h2 | h2
    · exact Or.inl (Or.inr ⟨h, h2⟩)
    · exact Or.inr (Or.inr ⟨h.symm, h2⟩)
  · exact Or.inr (Or.inl h)

theorem keyLE_trans {k₁ k₂ k₃ : WithTop ℚ × WithTop ℚ}
    (h : keyLE k₁ k₂) (h' : keyLE k₂ k₃) : keyLE k₁ k₃ := by
  rcases h with h | ⟨he, hl⟩ <;> rcases h' with h' | ⟨he', hl'⟩
  · exact Or.inl (h.trans h')
  · exact Or.inl (he' ▸ h)
  · exact Or.inl (he ▸ h')
  · exact Or.inr ⟨he.trans he', hl.trans hl'⟩

instance (dist : Dist) (center : Location) :
    IsTotal Apartment (aptRel dist center) :=
  ⟨fun _ _ => keyLE_total _ _⟩

instance (dist : Dist) (center : Location) :
    IsTrans Apartment (aptRel dist center) :=
  ⟨fun _ _ _ => keyLE_trans⟩

/-- Stability of the modelled sort: for every key value `k`, the subsequence
of listings whose sort key is `k` is unchanged by sorting. -/
theorem filter_key_sortApartments (dist : Dist) (center : Location)
    (l : List Apartment) (k : WithTop ℚ × WithTop ℚ) :
    (sortApartments dist center l).filter
        (fun a => decide (sort_key dist center a = k)) =
      l.filter (fun a => decide (sort_key dist center a = k)) := by
  induction l with
  | nil => rfl
  | cons a l ih =>
    rw [sortApartments, List.insertionSort,
      List.orderedInsert_eq_take_drop, List.filter_append]
    rw [sortApartments] at ih
    by_cases hk : sort_key dist center a = k
    · have htake : (List.filter (fun a => decide (sort_key dist center a = k))
          ((List.insertionSort (aptRel dist center) l).takeWhile
            (fun b => decide ¬aptRel dist center a b))) = [] := by
        rw [List.filter_eq_nil_iff]
        intro b hb
        have hq := List.mem_takeWhile_imp hb
        simp only [decide_eq_true_eq] at hq ⊢
        intro hbk
        exact hq (by rw [aptRel, hk, hbk]; exact keyLE_refl k)
      rw [htake, List.nil_append, List.filter_cons, if_pos (by simpa using hk),
        List.filter_cons, if_pos (by simpa using hk)]
      have hsplit := congrArg
        (List.filter (fun a => decide (sort_key dist center a = k)))
        (List.takeWhile_append_dropWhile
          (fun b => decide ¬aptRel dist center a b)
          (List.insertionSort (aptRel dist center) l))
      rw [List.filter_append, htake, List.nil_append] at hsplit
      rw [hsplit, ih]
    · rw [List.filter_cons, if_neg (by simpa using hk), List.filter_cons,
        if_neg (by simpa using hk), ← List.filter_append,
        List.takeWhile_append_dropWhile, ih]

/-- The step function of the fetch fan-out loop, shifted accumulator:
folding from `acc` appends the fold from `[]`. -/
theorem fetch_results_acc {ε : Type} (config : AppConfig)
    (ps : List (Provider ε)) : ∀ acc : List Apartment,
    ps.foldl
        (fun acc p =>
          match p.fetch config with
          | .ok results => acc ++ results
          | .error _ => acc)
        acc
      = acc ++ fetch_results ps config := by
  induction ps with
  | nil => intro acc; simp [fetch_results]
  | cons p ps ih =>
    intro acc
    rw [List.foldl_cons]
    conv_rhs => rw [fetch_results, List.foldl_cons, ih]
    rw [ih]
    cases hf : p.fetch config <;> simp

theorem fetch_results_append {ε : Type} (l₁ l₂ : List (Provider ε))
    (config : AppConfig) :
    fetch_results (l₁ ++ l₂) config =
      fetch_results l₁ config ++ fetch_results l₂ config := by
  rw [fetch_results, List.foldl_append]
  have h1 : List.foldl
      (fun acc p =>
        match p.fetch config with
        | .ok results => acc ++ results
        | .error _ => acc)
      [] l₁ = fetch_results l₁ config := rfl
  rw [h1, fetch_results_acc]

theorem discover_providers_append {ε : Type} (l₁ l₂ : List (Provider ε))
    (names : List String) :
    discover_providers (l₁ ++ l₂) names =
      discover_providers l₁ names ++ discover_providers l₂ names := by
  by_cases h : names.isEmpty <;> simp [discover_providers, h, List.filter_append]

/-! ## Claims -/

/-- C3: deduplication in `run_aggregation` is by the exact `(provider, id)`
key: the result is a sublist of the input (insertion-order positions kept);
for every key, exactly the first listing carrying it survives; and — as the
key includes the provider — listings from different providers are never
merged even with equal ids, witnessed on the spec's `[(A,"1"), (B,"1"),
(A,"1")]` example. -/
theorem dedup_first_occurrence_by_provider_id_key :
    (∀ l : List Apartment, List.Sublist (dedup l) l)
    ∧ (∀ (l : List Apartment) (k : String × String),
        (dedup l).filter (fun a => decide ((a.provider, a.id) = k)) =
          (l.filter (fun a => decide ((a.provider, a.id) = k))).take 1)
    ∧ dedup [{ id := "1", provider := "A", lat := none, lon := none,
                price := some 100, beds := none },
             { id := "1", provider := "B", lat := none, lon := none,
                price := none, beds := none },
             { id := "1", provider := "A", lat := none, lon := none,
                price := some 999, beds := some 2 }] =
        [{ id := "1", provider := "A", lat := none, lon := none,
            price := some 100, beds := none },
         { id := "1", provider := "B", lat := none, lon := none,
            price := none, beds := none }] := by
  refine ⟨fun l => dedupGo_sublist [] l, fun l k => ?_, by decide⟩
  rw [dedup, dedupGo_filter_key]
  simp

theorem mem_filter_by_radius (dist : Dist) (l : List Apartment)
    (center : Location) (r : ℚ) (a : Apartment) :
    a ∈ filter_by_radius dist l center r ↔
      a ∈ l ∧ ∃ la lo, a.lat = some la ∧ a.lon = some lo ∧
        dist center.lat center.lon la lo ≤ r := by
  rcases hla : a.lat with _ | la <;> rcases hlo : a.lon with _ | lo <;>
    simp [filter_by_radius, List.mem_filter, within_radius, hla, hlo]

/-- C6: the radius filter keeps exactly the listings with both coordinates
present whose distance to the center is at most the radius (inclusive), and
drops every listing missing either coordinate no matter the radius. -/
theorem filter_by_radius_spec :
    (∀ (dist : Dist) (l : List Apartment) (center : Location) (r : ℚ)
        (a : Apartment),
      a ∈ filter_by_radius dist l center r ↔
        a ∈ l ∧ ∃ la lo, a.lat = some la ∧ a.lon = some lo ∧
          dist center.lat center.lon la lo ≤ r)
    ∧ (∀ (dist : Dist) (l : List Apartment) (center : Location) (r : ℚ)
        (a : Apartment), a.lat = none ∨ a.lon = none →
        a ∉ filter_by_radius dist l center r) := by
  refine ⟨mem_filter_by_radius, fun dist l center r a h hmem => ?_⟩
  obtain ⟨-, la, lo, hla, hlo, -⟩ := (mem_filter_by_radius _ _ _ _ _).mp hmem
  rcases h with h | h
  · rw [h] at hla; exact Option.noConfusion hla
  · rw [h] at hlo; exact Option.noConfusion hlo

/-- C6 witness: with the constant distance oracle returning 5 km and radius
exactly 5 km, a listing with both coordinates is kept (inclusive boundary),
and a listing missing its longitude is not, at radius 1000 km. -/
theorem filter_by_radius_spec_witness :
    ({ id := "a", provider := "p", lat := some 1, lon := some 2,
        price := none, beds := none } : Apartment) ∈
      filter_by_radius (fun _ _ _ _ => 5)
        [{ id := "a", provider := "p", lat := some 1, lon := some 2,
            price := none, beds := none }] ⟨0, 0⟩ 5
    ∧ ({ id := "b", provider := "p", lat := some 1, lon := none,
          price := none, beds := none } : Apartment) ∉
      filter_by_radius (fun _ _ _ _ => 5)
        [{ id := "b", provider := "p", lat := some 1, lon := none,
            price := none, beds := none }] ⟨0, 0⟩ 1000 :=
  ⟨(filter_by_radius_spec.1 _ _ _ _ _).mpr
      ⟨by decide, 1, 2, rfl, rfl, by norm_num⟩,
    filter_by_radius_spec.2 (fun _ _ _ _ => 5) _ ⟨0, 0⟩ 1000 _ (Or.inr rfl)⟩

/-- C7: the price filter passes any listing without a price; a priced listing
is kept iff it meets each configured bound (absent bounds unconstrained); the
bed filter behaves symmetrically over bed counts. -/
theorem filter_by_price_and_beds_spec :
    (∀ (l : List Apartment) (minp maxp : Option Int) (a : Apartment),
      a ∈ filter_by_price l minp maxp ↔
        a ∈ l ∧ (a.price = none ∨ ∃ p, a.price = some p ∧
          (∀ m, minp = some m → m ≤ p) ∧ (∀ m, maxp = some m → p ≤ m)))
    ∧ (∀ (l : List Apartment) (minb maxb : Option ℚ) (a : Apartment),
      a ∈ filter_by_beds l minb maxb ↔
        a ∈ l ∧ (a.beds = none ∨ ∃ b, a.beds = some b ∧
          (∀ m, minb = some m → m ≤ b) ∧ (∀ m, maxb = some m → b ≤ m))) := by
  constructor
  · intro l minp maxp a
    rcases hp : a.price with _ | p <;>
      rcases minp with _ | m <;> rcases maxp with _ | M <;>
        simp [filter_by_price, List.mem_filter, hp, not_lt]
  · intro l minb maxb a
    rcases hb : a.beds with _ | b <;>
      rcases minb with _ | m <;> rcases maxb with _ | M <;>
        simp [filter_by_beds, List.mem_filter, hb, not_lt]

/-- C8: provider discovery with an empty enabled-name list returns all
discovered providers; with a non-empty list it returns exactly the discovered
providers whose name is in the list, in discovery order (a sublist of the
discovery list); an enabled name matching no discovered provider is silently
dropped without changing the result. -/
theorem discover_providers_spec :
    (∀ (ε : Type) (discovered : List (Provider ε)),
      discover_providers discovered [] = discovered)
    ∧ (∀ (ε : Type) (discovered : List (Provider ε)) (names : List String),
        List.Sublist (discover_providers discovered names) discovered)
    ∧ (∀ (ε : Type) (discovered : List (Provider ε)) (names : List String)
        (c : Provider ε), names ≠ [] →
        (c ∈ discover_providers discovered names ↔
          c ∈ discovered ∧ c.name ∈ names))
    ∧ (∀ (ε : Type) (discovered : List (Provider ε)) (names : List String)
        (n : String), names ≠ [] → (∀ c ∈ discovered, c.name ≠ n) →
        discover_providers discovered (n :: names) =
          discover_providers discovered names) := by
  refine ⟨fun ε discovered => by simp [discover_providers],
    fun ε discovered names => ?_, fun ε discovered names c hne => ?_,
    fun ε discovered names n hne hmiss => ?_⟩
  · rw [discover_providers]
    split
    · exact List.Sublist.refl _
    · exact List.filter_sublist _
  · rw [discover_providers, if_neg (by simpa using hne), List.mem_filter]
    simp
  · rw [discover_providers, if_neg (by simp),
      discover_providers, if_neg (by simpa using hne)]
    refine List.filter_congr fun c hc => ?_
    simp [hmiss c hc]

/-- C8 witness: concrete discovery lists exercising all four conjuncts,
including a bogus enabled name `"zzz"` being dropped silently. -/
theorem discover_providers_spec_witness :
    (discover_providers
        [({ name := "a", fetch := fun _ => .ok [] } : Provider Unit)] [] =
      [({ name := "a", fetch := fun _ => .ok [] } : Provider Unit)])
    ∧ (({ name := "a", fetch := fun _ => .ok [] } : Provider Unit) ∈
        discover_providers
          [({ name := "a", fetch := fun _ => .ok [] } : Provider Unit)] ["a"] ↔
        ({ name := "a", fetch := fun _ => .ok [] } : Provider Unit) ∈
            [({ name := "a", fetch := fun _ => .ok [] } : Provider Unit)]
          ∧ "a" ∈ ["a"])
    ∧ discover_providers
        [({ name := "a", fetch := fun _ => .ok [] } : Provider Unit)]
        ["zzz", "a"] =
      discover_providers
        [({ name := "a", fetch := fun _ => .ok [] } : Provider Unit)] ["a"] :=
  ⟨discover_providers_spec.1 Unit _,
    discover_providers_spec.2.2.1 Unit _ ["a"] _ (by simp),
    discover_providers_spec.2.2.2 Unit _ ["a"] "zzz" (by simp)
      (fun c hc => by rw [List.mem_singleton] at hc; subst hc; decide)⟩

/-- C1: with a positive configured limit `N`, `run_aggregation` truncates to
the first `N` entries *after* the radius/price/bed filters but *before* the
final distance sort: the returned list is the sort of the first `N`
post-filter entries. The final conjunct exhibits a concrete run where this
differs from the first `N` entries of the sorted list (the working list is
`[far, near]`; the pipeline returns `[far]`, while take-after-sort would give
`[near]`). -/
theorem run_aggregation_truncates_before_sort :
    (∀ (ε : Type) (dist : Dist) (geocode : String → Option Location)
        (discovered : List (Provider ε)) (config : AppConfig) (N : Int)
        (center : Location),
      config.limit = some N → 0 < N →
      resolve_center geocode config = .ok center →
      run_aggregation dist geocode discovered config =
        .ok (sortApartments dist center
          ((filter_by_beds
              (filter_by_price
                (filter_by_radius dist
                  (dedup (fetch_results
                    (discover_providers discovered config.providers) config))
                  center config.radius_km)
                config.min_price config.max_price)
              config.min_beds config.max_beds).take N.toNat)))
    ∧ run_aggregation (ε := Unit) (fun _ _ la _ => la) (fun _ => none)
        [{ name := "stub", fetch := fun _ => .ok
            [{ id := "far", provider := "stub", lat := some 5, lon := some 0,
                price := none, beds := none },
             { id := "near", provider := "stub", lat := some 1, lon := some 0,
                price := none, beds := none }] }]
        { center_lat := some 0, center_lon := some 0, radius_km := 10,
          «limit» := some 1 } =
      .ok [{ id := "far", provider := "stub", lat := some 5, lon := some 0,
              price := none, beds := none }]
    ∧ (sortApartments (fun _ _ la _ => la) ⟨0, 0⟩
          [{ id := "far", provider := "stub", lat := some 5, lon := some 0,
              price := none, beds := none },
           { id := "near", provider := "stub", lat := some 1, lon := some 0,
              price := none, beds := none }]).take 1 =
        [{ id := "near", provider := "stub", lat := some 1, lon := some 0,
            price := none, beds := none }] := by
  refine ⟨fun ε dist geocode discovered config N center hlim hpos hres => ?_,
    rfl, by decide⟩
  simp only [run_aggregation, hres, apply_filters, hlim, if_pos hpos]

/-- C1 witness: the general conjunct applied to the concrete run of the
second conjunct (limit 1, two in-radius listings). -/
theorem run_aggregation_truncates_before_sort_witness :
    run_aggregation (ε := Unit) (fun _ _ la _ => la) (fun _ => none)
        [{ name := "stub", fetch := fun _ => .ok
            [{ id := "far", provider := "stub", lat := some 5, lon := some 0,
                price := none, beds := none },
             { id := "near", provider := "stub", lat := some 1, lon := some 0,
                price := none, beds := none }] }]
        { center_lat := some 0, center_lon := some 0, radius_km := 10,
          «limit» := some 1 } =
      .ok (sortApartments (fun _ _ la _ => la) ⟨0, 0⟩
        ((filter_by_beds
            (filter_by_price
              (filter_by_radius (fun _ _ la _ => la)
                (dedup (fetch_results
                  (discover_providers (ε := Unit)
                    [{ name := "stub", fetch := fun _ => .ok
                        [{ id := "far", provider := "stub", lat := some 5,
                            lon := some 0, price := none, beds := none },
                         { id := "near", provider := "stub", lat := some 1,
                            lon := some 0, price := none, beds := none }] }]
                    [])
                  { center_lat := some 0, center_lon := some 0,
                    radius_km := 10, «limit» := some 1 }))
                ⟨0, 0⟩ 10)
              none none)
            none none).take (1 : Int).toNat)) :=
  run_aggregation_truncates_before_sort.1 Unit _ _ _ _ 1 ⟨0, 0⟩ rfl
    (by norm_num) rfl

/-- C2: the final step of `run_aggregation` sorts the post-filter listings by
the ascending lexicographic `(distance, price)` key in which a missing
coordinate means infinite distance and a missing price means infinite price
(`sort_key`/`keyLE`), and the sort is a stable permutation: the output is
sorted under `aptRel`, is a permutation of its input, and for every key value
the subsequence of listings with that exact key is unchanged. -/
theorem run_aggregation_sort_spec :
    (∀ (ε : Type) (dist : Dist) (geocode : String → Option Location)
        (discovered : List (Provider ε)) (config : AppConfig)
        (center : Location),
      resolve_center geocode config = .ok center →
      run_aggregation dist geocode discovered config =
        .ok (sortApartments dist center
          (apply_filters dist
            (dedup (fetch_results
              (discover_providers discovered config.providers) config))
            config center)))
    ∧ (∀ (dist : Dist) (center : Location) (l : List Apartment),
        List.Sorted (aptRel dist center) (sortApartments dist center l))
    ∧ (∀ (dist : Dist) (center : Location) (l : List Apartment),
        List.Perm (sortApartments dist center l) l)
    ∧ (∀ (dist : Dist) (center : Location) (l : List Apartment)
        (k : WithTop ℚ × WithTop ℚ),
        (sortApartments dist center l).filter
            (fun a => decide (sort_key dist center a = k)) =
          l.filter (fun a => decide (sort_key dist center a = k))) := by
  refine ⟨fun ε dist geocode discovered config center hres => ?_,
    fun dist center l => List.sorted_insertionSort _ l,
    fun dist center l => List.perm_insertionSort _ l,
    filter_key_sortApartments⟩
  simp only [run_aggregation, hres]

/-- C2 witness: the sort equation applied to a concrete resolvable
configuration, exercising the spec's `[5, inf, 2]`-distance example through
`sortApartments` (distance dominates price, missing coordinates sort last). -/
theorem run_aggregation_sort_spec_witness :
    run_aggregation (ε := Unit) (fun _ _ la _ => la) (fun _ => none) []
        { center_lat := some 0, center_lon := some 0 } =
      .ok (sortApartments (fun _ _ la _ => la) ⟨0, 0⟩
        (apply_filters (fun _ _ la _ => la)
          (dedup (fetch_results
            (discover_providers ([] : List (Provider Unit)) [])
            { center_lat := some 0, center_lon := some 0 }))
          { center_lat := some 0, center_lon := some 0 } ⟨0, 0⟩))
    ∧ sortApartments (fun _ _ la _ => la) ⟨0, 0⟩
        [{ id := "d5", provider := "p", lat := some 5, lon := some 0,
            price := some 1000, beds := none },
         { id := "dinf", provider := "p", lat := none, lon := none,
            price := some 500, beds := none },
         { id := "d2", provider := "p", lat := some 2, lon := some 0,
            price := some 2000, beds := none }] =
      [{ id := "d2", provider := "p", lat := some 2, lon := some 0,
          price := some 2000, beds := none },
       { id := "d5", provider := "p", lat := some 5, lon := some 0,
          price := some 1000, beds := none },
       { id := "dinf", provider := "p", lat := none, lon := none,
          price := some 500, beds := none }] :=
  ⟨run_aggregation_sort_spec.1 Unit _ _ _ _ ⟨0, 0⟩ rfl, by decide⟩

/-- C4: a provider whose fetch raises is isolated — the run behaves exactly
as if that provider had returned no listings (first conjunct), and
`run_aggregation` raises precisely the center-resolution errors: it returns
`.error e` iff `resolve_center` does, so with a resolvable center it always
returns `.ok` of the remaining providers' filtered, sorted listings. -/
theorem provider_failure_is_isolated :
    (∀ (ε : Type) (dist : Dist) (geocode : String → Option Location)
        (config : AppConfig) (pre post : List (Provider ε)) (p : Provider ε)
        (e : ε),
      p.fetch config = .error e →
      run_aggregation dist geocode (pre ++ p :: post) config =
        run_aggregation dist geocode
          (pre ++ { name := p.name, fetch := fun _ => .ok [] } :: post)
          config)
    ∧ (∀ (ε : Type) (dist : Dist) (geocode : String → Option Location)
        (discovered : List (Provider ε)) (config : AppConfig)
        (e : CenterError),
      run_aggregation dist geocode discovered config = .error e ↔
        resolve_center geocode config = .error e) := by
  constructor
  · intro ε dist geocode config pre post p e hfail
    have key : ∀ names, fetch_results (discover_providers (pre ++ p :: post) names) config
        = fetch_results
            (discover_providers
              (pre ++ ({ name := p.name, fetch := fun _ => .ok [] } : Provider ε) :: post)
              names) config := by
      intro names
      have hp : p :: post = [p] ++ post := rfl
      have hq : ({ name := p.name, fetch := fun _ => .ok [] } : Provider ε) :: post
          = [{ name := p.name, fetch := fun _ => .ok [] }] ++ post := rfl
      rw [hp, hq, ← List.append_assoc, ← List.append_assoc,
        discover_providers_append, discover_providers_append,
        fetch_results_append, fetch_results_append,
        discover_providers_append, discover_providers_append,
        fetch_results_append, fetch_results_append]
      have hmidp : fetch_results (discover_providers [p] names) config = [] := by
        rw [discover_providers]
        split
        · simp [fetch_results, hfail]
        · by_cases hn : decide (p.name ∈ names)
          · simp [hn, fetch_results, hfail]
          · simp only [List.filter_cons, hn, List.filter_nil]
            rfl
      have hmidq : fetch_results
          (discover_providers
            [({ name := p.name, fetch := fun _ => .ok [] } : Provider ε)] names)
          config = [] := by
        rw [discover_providers]
        split
        · simp [fetch_results]
        · by_cases hn : decide
              (({ name := p.name, fetch := fun _ => .ok [] } : Provider ε).name ∈ names)
          · simp [hn, fetch_results]
          · simp only [List.filter_cons, hn, List.filter_nil]
            rfl
      rw [hmidp, hmidq]
    cases hres : resolve_center geocode config with
    | error e' => simp [run_aggregation, hres]
    | ok center => simp [run_aggregation, hres, key config.providers]
  · intro ε dist geocode discovered config e
    cases hres : resolve_center geocode config with
    | error e' => simp [run_aggregation, hres]
    | ok center => simp [run_aggregation, hres]

/-- C4 witness: a run with one raising provider and one healthy provider:
the raising provider is interchangeable with an empty one, and the run
returns `.error` iff center resolution does (here it resolves). -/
theorem provider_failure_is_isolated_witness :
    run_aggregation (ε := String) (fun _ _ _ _ => 0) (fun _ => none)
        ([] ++ ({ name := "bad", fetch := fun _ => .error "boom" } : Provider String) ::
          [{ name := "good", fetch := fun _ => .ok
              [{ id := "g", provider := "good", lat := some 0, lon := some 0,
                  price := some 1000, beds := none }] }])
        { center_lat := some 0, center_lon := some 0 } =
      run_aggregation (fun _ _ _ _ => 0) (fun _ => none)
        ([] ++ ({ name := "bad", fetch := fun _ => .ok [] } : Provider String) ::
          [{ name := "good", fetch := fun _ => .ok
              [{ id := "g", provider := "good", lat := some 0, lon := some 0,
                  price := some 1000, beds := none }] }])
        { center_lat := some 0, center_lon := some 0 }
    ∧ (run_aggregation (ε := String) (fun _ _ _ _ => 0) (fun _ => none)
          [{ name := "bad", fetch := fun _ => .error "boom" }]
          { center_lat := some 0, center_lon := some 0 } =
            .error .configurationError ↔
        resolve_center (fun _ => none)
            { center_lat := some 0, center_lon := some 0 } =
          .error .configurationError) :=
  ⟨provider_failure_is_isolated.1 String _ _ _ [] _ _ "boom" rfl,
    provider_failure_is_isolated.2 String _ _ _ _ .configurationError⟩

/-- While the loop can still run (or a failure was already recorded), the
trailing assertion cannot fire. -/
theorem fetchLoop_ne_assert {J : Type} (outcomes : Int → AttemptOutcome J)
    (retries : Int) (b : ℚ) (attempt : Int) (last : Option Exc)
    (sleeps : List ℚ) (h : attempt < retries ∨ last.isSome) :
    (fetchLoop outcomes retries b attempt last sleeps).1 ≠ .assertionError := by
  rw [fetchLoop]
  split
  · next hlt =>
      split
      · simp
      · exact fetchLoop_ne_assert outcomes retries b (attempt + 1) (some _) _
          (Or.inr rfl)
  · next hge =>
      rcases h with h | h
      · exact absurd h hge
      · match last, h with
        | some e, _ => simp [fetchExit]
termination_by (retries - attempt).toNat
decreasing_by omega

/-- If every remaining attempt fails, the loop exits by re-raising the last
attempt's exception. -/
theorem fetchLoop_all_fail {J : Type} (outcomes : Int → AttemptOutcome J)
    (retries : Int) (b : ℚ) (es : Int → Exc)
    (hall : ∀ i, 0 ≤ i → i < retries → outcomes i = .failure (es i))
    (attempt : Int) (last : Option Exc) (sleeps : List ℚ)
    (h0 : 0 ≤ attempt) (hlt : attempt < retries) :
    (fetchLoop outcomes retries b attempt last sleeps).1 =
      .raised (es (retries - 1)) := by
  rw [fetchLoop, dif_pos hlt]
  simp only [hall attempt h0 hlt]
  by_cases h2 : attempt + 1 < retries
  · exact fetchLoop_all_fail outcomes retries b es hall (attempt + 1) _ _
      (by omega) h2
  · have heq : attempt = retries - 1 := by omega
    rw [fetchLoop, dif_neg h2]
    simp [fetchExit, heq]
termination_by (retries - attempt).toNat
decreasing_by omega

/-- C5 counterexample: the claim is false on the code. With the first attempt
returning a 2xx response whose body is malformed JSON (a `jsonDecode`
failure) and the second attempt succeeding, `fetch_json` with 3 retries and
backoff factor 1/2 does *not* surface the JSON error immediately: it sleeps
once for 0.5 s (the backoff), retries, and returns the second attempt's
value. -/
theorem fetch_json_malformed_json_counterexample :
    fetch_json
        (fun i => if i = 0 then .failure .jsonDecode else .success (7 : Nat))
        3 (1/2) =
      (.value 7, [1/2]) := by
  rw [fetch_json, fetchLoop]
  norm_num
  rw [fetchLoop]
  norm_num

/-- C5 (amended): a malformed-JSON body on a successful (2xx) response is
caught by the same `except Exception` clause as transport errors and non-2xx
statuses, so it is retried with a backoff sleep exactly like them; after
`retries` consecutive failed attempts `fetch_json` re-raises the last
attempt's exception (there is no separate `FetchError` wrapping). -/
theorem fetch_json_retries_malformed_json :
    (∀ (J : Type) (outcomes : Int → AttemptOutcome J) (retries : Int) (b : ℚ)
        (v : J), 2 ≤ retries → outcomes 0 = .failure .jsonDecode →
      outcomes 1 = .success v →
      (fetch_json outcomes retries b).1 = .value v ∧
        (fetch_json outcomes retries b).2.length = 1)
    ∧ (∀ (J : Type) (outcomes : Int → AttemptOutcome J) (retries : Int)
        (b : ℚ) (es : Int → Exc), 1 ≤ retries →
      (∀ i, 0 ≤ i → i < retries → outcomes i = .failure (es i)) →
      (fetch_json outcomes retries b).1 = .raised (es (retries - 1))) := by
  constructor
  · intro J outcomes retries b v h2 h0 h1
    rw [fetch_json, fetchLoop, dif_pos (by omega : (0:Int) < retries)]
    simp only [h0]
    rw [fetchLoop, dif_pos (by omega : (0:Int) + 1 < retries)]
    norm_num [h1]
  · intro J outcomes retries b es h1 hall
    rw [fetch_json]
    exact fetchLoop_all_fail outcomes retries b es hall 0 none []
      (by omega) (by omega)

/-- C5 amended-claim witness: a malformed-JSON first attempt followed by a
success is retried (2 retries budget); two consecutive transport failures
exhaust a 2-retry budget and re-raise the transport error. -/
theorem fetch_json_retries_malformed_json_witness :
    ((fetch_json
          (fun i => if i = 0 then .failure .jsonDecode else .success (7 : Nat))
          2 1).1 = .value 7 ∧
      (fetch_json
          (fun i => if i = 0 then .failure .jsonDecode else .success (7 : Nat))
          2 1).2.length = 1)
    ∧ (fetch_json (J := Nat) (fun _ => .failure .transport) 2 1).1 =
        .raised .transport :=
  ⟨fetch_json_retries_malformed_json.1 Nat _ 2 1 7 (by norm_num) rfl rfl,
    fetch_json_retries_malformed_json.2 Nat _ 2 1 (fun _ => .transport)
      (by norm_num) (fun i _ _ => rfl)⟩

/-- C9: with `retries <= 0` the `while` loop body never runs, `last_exc`
stays `None`, and `assert last_exc is not None` fails — `fetch_json` ends in
`AssertionError` having slept zero times; with `retries >= 1` the assertion
can never fire. -/
theorem fetch_json_assertion_iff_nonpositive_retries :
    (∀ (J : Type) (outcomes : Int → AttemptOutcome J) (retries : Int) (b : ℚ),
      retries ≤ 0 → fetch_json outcomes retries b = (.assertionError, []))
    ∧ (∀ (J : Type) (outcomes : Int → AttemptOutcome J) (retries : Int)
        (b : ℚ), 1 ≤ retries →
      (fetch_json outcomes retries b).1 ≠ .assertionError) := by
  constructor
  · intro J outcomes retries b hle
    rw [fetch_json, fetchLoop, dif_neg (by omega)]
    rfl
  · intro J outcomes retries b hge
    exact fetchLoop_ne_assert outcomes retries b 0 none []
      (Or.inl (by omega))

/-- C9 witness: `retries = 0` yields `AssertionError` with no sleeps even
when every attempt would have succeeded; `retries = 1` cannot yield
`AssertionError`. -/
theorem fetch_json_assertion_iff_nonpositive_retries_witness :
    fetch_json (fun _ => .success (5 : Nat)) 0 1 = (.assertionError, [])
    ∧ (fetch_json (fun _ => .success (5 : Nat)) 1 1).1 ≠ .assertionError :=
  ⟨fetch_json_assertion_iff_nonpositive_retries.1 Nat _ 0 1 le_rfl,
    fetch_json_assertion_iff_nonpositive_retries.2 Nat _ 1 1 le_rfl⟩

/-- A provider fetching `.ok []` contributes nothing: it can be dropped from
the discovery list without changing the run's outcome. -/
theorem run_aggregation_drop_empty_provider {ε : Type} (dist : Dist)
    (geocode : String → Option Location) (config : AppConfig)
    (pre post : List (Provider ε)) (p : Provider ε)
    (hp : p.fetch config = .ok []) :
    run_aggregation dist geocode (pre ++ p :: post) config =
      run_aggregation dist geocode (pre ++ post) config := by
  have key : ∀ names,
      fetch_results (discover_providers (pre ++ p :: post) names) config =
        fetch_results (discover_providers (pre ++ post) names) config := by
    intro names
    have hsplit : p :: post = [p] ++ post := rfl
    rw [hsplit, ← List.append_assoc, discover_providers_append,
      discover_providers_append, fetch_results_append, fetch_results_append,
      discover_providers_append, fetch_results_append]
    have hmid : fetch_results (discover_providers [p] names) config = [] := by
      rw [discover_providers]
      split
      · simp [fetch_results, hp]
      · by_cases hn : decide (p.name ∈ names)
        · simp [hn, fetch_results, hp]
        · simp only [List.filter_cons, hn, List.filter_nil]
          rfl
    rw [hmid]
    simp
  cases hres : resolve_center geocode config with
  | error e => simp [run_aggregation, hres]
  | ok center => simp [run_aggregation, hres, key config.providers]

/-- With no RentCast API key in the configured settings nor the environment
(both absent or empty — Python's `or` treats `""` as falsy), the provider's
`fetch` returns `.ok []` for every geocoder and HTTP oracle, i.e. without any
network interaction. -/
theorem rentcastFetch_no_key {I : Type} (envKey : Option String)
    (geocode : String → Option Location)
    (doRequest : RentcastQuery → Except Exc (RcResponse I))
    (normalize : I → Option Apartment) (config : AppConfig)
    (hc : config.rentcast_api_key = none ∨ config.rentcast_api_key = some "")
    (he : envKey = none ∨ envKey = some "") :
    rentcastFetch envKey geocode doRequest normalize config = .ok [] := by
  rcases hc with hc | hc <;> rcases he with he | he <;>
    simp [rentcastFetch, resolvedApiKey, hc, he]

/-- C10: with no RentCast API key configured (in the config or the
environment), the RentCast provider's fetch returns `.ok []` — no exception
and, as the result is independent of the `geocode` and `doRequest` oracles,
no network call — and a pipeline containing such a provider behaves exactly
as if the provider were absent, so the other providers' results are returned
with no failed-provider report. -/
theorem rentcast_no_key_silently_empty :
    (∀ (I : Type) (envKey : Option String)
        (geocode : String → Option Location)
        (doRequest : RentcastQuery → Except Exc (RcResponse I))
        (normalize : I → Option Apartment) (config : AppConfig),
      (config.rentcast_api_key = none ∨ config.rentcast_api_key = some "") →
      (envKey = none ∨ envKey = some "") →
      rentcastFetch envKey geocode doRequest normalize config = .ok [])
    ∧ (∀ (I : Type) (envKey : Option String)
        (rcGeocode : String → Option Location)
        (doRequest : RentcastQuery → Except Exc (RcResponse I))
        (normalize : I → Option Apartment) (dist : Dist)
        (geocode : String → Option Location) (config : AppConfig)
        (pre post : List (Provider RcError)),
      (config.rentcast_api_key = none ∨ config.rentcast_api_key = some "") →
      (envKey = none ∨ envKey = some "") →
      run_aggregation dist geocode
          (pre ++ { name := "rentcast_rental_listings",
                    fetch := rentcastFetch envKey rcGeocode doRequest normalize } ::
            post)
          config =
        run_aggregation dist geocode (pre ++ post) config) := by
  refine ⟨fun I envKey geocode doRequest normalize config hc he =>
    rentcastFetch_no_key envKey geocode doRequest normalize config hc he,
    fun I envKey rcGeocode doRequest normalize dist geocode config pre post
      hc he => ?_⟩
  exact run_aggregation_drop_empty_provider dist geocode config pre post _
    (rentcastFetch_no_key envKey rcGeocode doRequest normalize config hc he)

/-- C10 witness: a default configuration (no key anywhere), an
always-failing HTTP oracle and an always-failing geocoder: the fetch still
returns `.ok []`, and the pipeline with the keyless RentCast provider equals
the pipeline without it. -/
theorem rentcast_no_key_silently_empty_witness :
    rentcastFetch (I := Unit) none (fun _ => none)
        (fun _ => .error .transport) (fun _ => none) {} = .ok []
    ∧ run_aggregation (fun _ _ _ _ => 0) (fun _ => none)
        ([] ++ ({ name := "rentcast_rental_listings",
                  fetch := rentcastFetch (I := Unit) none (fun _ => none)
                    (fun _ => .error .transport) (fun _ => none) } :
            Provider RcError) :: [])
        { center_lat := some 0, center_lon := some 0 } =
      run_aggregation (fun _ _ _ _ => 0) (fun _ => none)
        ([] ++ ([] : List (Provider RcError)))
        { center_lat := some 0, center_lon := some 0 } :=
  ⟨rentcast_no_key_silently_empty.1 Unit none _ _ _ {} (Or.inl rfl)
      (Or.inl rfl),
    rentcast_no_key_silently_empty.2 Unit none _ _ _ _ _ _ [] [] (Or.inl rfl)
      (Or.inl rfl)⟩

end NycApartments
